import Mathlib

/-!
Shallow embedding of the `libechoexec` crate (src/echo.rs, src/error.rs).

The crate is an asynchronous event-emission client: callers build `Event`
values, batch them into a `Payload`, and hand the payload to `Spawner::spawn`,
which serializes the events to JSON and schedules an HTTP POST to a collector
endpoint on a background task.

The embedding below translates the data model and the pure logic of the
source: JSON serialization (serde with the field attributes of `Event`),
the `CollectorUrl`, `EventType` and `Response` enums, the setter methods,
`Spawner::spawn`, and the response-handling portion of `run_impl` including
the lossy UTF-8 decoding used to log error bodies.  Network and runtime
effects are made explicit: the scheduled background task is returned as a
value, HTTP responses are inputs, and log output is returned as a list of
structured entries (a `try_trace!`/`try_error!` call emits an entry only
when the optional logger is present).
-/

/-! ## JSON values and rendering (model of serde_json compact output) -/

/-- A JSON value as produced by the serde serializers in this crate.
`nat` covers the unsigned integer fields (u64/u16), `int` the signed
timestamp (i64). -/
inductive Json where
  | null
  | str (s : String)
  | int (n : Int)
  | nat (n : Nat)
  | obj (fields : List (String × Json))
  | arr (elems : List Json)

/-- One hexadecimal digit, lowercase (as used by serde_json escapes and by
the uuid crate's hyphenated display). -/
def hexDigitChar (n : Nat) : Char :=
  if n < 10 then Char.ofNat (48 + n) else Char.ofNat (87 + n)

/-- serde_json escaping of a single character inside a JSON string:
quote and backslash are escaped, the short escapes \b \t \n \f \r are used,
any other control character below 0x20 becomes a \u00XX escape, and
everything else is passed through. -/
def escapeChar (c : Char) : String :=
  if c = '\"' then "\\\""
  else if c = '\\' then "\\\\"
  else if c = Char.ofNat 0x08 then "\\b"
  else if c = '\t' then "\\t"
  else if c = '\n' then "\\n"
  else if c = Char.ofNat 0x0C then "\\f"
  else if c = '\r' then "\\r"
  else if c.toNat < 0x20 then
    "\\u00" ++ String.singleton (hexDigitChar (c.toNat / 16))
      ++ String.singleton (hexDigitChar (c.toNat % 16))
  else String.singleton c

/-- Render a JSON string literal with serde_json escaping. -/
def renderString (s : String) : String :=
  "\"" ++ String.join (s.toList.map escapeChar) ++ "\""

mutual

/-- Compact rendering of a JSON value, as `serde_json::to_string` emits it:
no whitespace, object fields in the order the serializer wrote them. -/
def Json.render : Json → String
  | .null => "null"
  | .str s => renderString s
  | .int n => toString n
  | .nat n => toString n
  | .obj fs => "\x7b" ++ Json.renderFields fs ++ "\x7d"
  | .arr xs => "[" ++ Json.renderElems xs ++ "]"

/-- Comma-separated `"key":value` list of an object body. -/
def Json.renderFields : List (String × Json) → String
  | [] => ""
  | [(k, v)] => renderString k ++ ":" ++ Json.render v
  | (k, v) :: rest => renderString k ++ ":" ++ Json.render v ++ "," ++ Json.renderFields rest

/-- Comma-separated element list of an array body. -/
def Json.renderElems : List Json → String
  | [] => ""
  | [x] => Json.render x
  | x :: rest => Json.render x ++ "," ++ Json.renderElems rest

end

/-! ## UUID (model of the uuid crate as used here) -/

/-- A UUID, identified by its 128-bit value. -/
structure Uuid where
  val : Nat
  deriving DecidableEq

/-- Lowercase fixed-width hexadecimal rendering of `n`, `w` digits. -/
def toHexPad (n w : Nat) : String :=
  String.mk ((List.range w).map fun i => hexDigitChar (n / 16 ^ (w - 1 - i) % 16))

/-- The hyphenated lowercase form `xxxxxxxx-xxxx-xxxx-xxxx-xxxxxxxxxxxx`
used by the uuid crate's Display and by its serde Serialize impl. -/
def Uuid.hyphenated (u : Uuid) : String :=
  toHexPad (u.val / 2 ^ 96 % 2 ^ 32) 8 ++ "-" ++
  toHexPad (u.val / 2 ^ 80 % 2 ^ 16) 4 ++ "-" ++
  toHexPad (u.val / 2 ^ 64 % 2 ^ 16) 4 ++ "-" ++
  toHexPad (u.val / 2 ^ 48 % 2 ^ 16) 4 ++ "-" ++
  toHexPad (u.val % 2 ^ 48) 12

/-- Value of one hexadecimal digit character, either case. -/
def hexVal (c : Char) : Option Nat :=
  if 48 ≤ c.toNat ∧ c.toNat ≤ 57 then some (c.toNat - 48)
  else if 97 ≤ c.toNat ∧ c.toNat ≤ 102 then some (c.toNat - 87)
  else if 65 ≤ c.toNat ∧ c.toNat ≤ 70 then some (c.toNat - 55)
  else none

/-- Fold a list of hex digit characters into a number; `none` on a
non-hex character. -/
def hexFold : List Char → Option Nat
  | [] => some 0
  | c :: rest =>
    match hexVal c, hexFold rest with
    | some d, some n => some (d * 16 ^ rest.length + n)
    | _, _ => none

/-- `Uuid::parse_str` on the two forms used by this crate: 32 hex digits,
or the hyphenated form with hyphens at positions 8, 13, 18 and 23.
Hex digits of either case are accepted; the stored value is case-free. -/
def Uuid.parse_str (s : String) : Option Uuid :=
  let cs := s.toList
  if cs.length = 32 then
    (hexFold cs).map Uuid.mk
  else if cs.length = 36 then
    if cs.get? 8 = some '-' ∧ cs.get? 13 = some '-' ∧
        cs.get? 18 = some '-' ∧ cs.get? 23 = some '-' then
      (hexFold (cs.filter (· ≠ '-'))).map Uuid.mk
    else none
  else none

/-! ## Enums of the crate -/

/-- Echo event type (`EventType` in src/echo.rs, default `Info`). -/
inductive EventType where
  | Error
  | Info
  | Performance
  | Tracking
  | System
  deriving DecidableEq

instance : Inhabited EventType := ⟨EventType.Info⟩

/-- The string emitted by the hand-written `Serialize` impl of `EventType`
(`serializer.serialize_str`). -/
def EventType.serialize : EventType → String
  | .Error => "ERROR"
  | .Info => "INFO"
  | .Performance => "PERFORMANCE"
  | .Tracking => "TRACKING"
  | .System => "SYSTEM"

/-- Generic response outcome (`Response` in src/echo.rs, default `Success`). -/
inductive Response where
  | Success
  | Failure
  deriving DecidableEq

instance : Inhabited Response := ⟨Response.Success⟩

/-- The string emitted by the hand-written `Serialize` impl of `Response`. -/
def Response.serialize : Response → String
  | .Success => "success"
  | .Failure => "failure"

/-- The Echo messages urls (`CollectorUrl` in src/echo.rs, default `Stage`). -/
inductive CollectorUrl where
  | Stage
  | Prod
  deriving DecidableEq

instance : Inhabited CollectorUrl := ⟨CollectorUrl.Stage⟩

/-- `CollectorUrl::as_str`. -/
def CollectorUrl.as_str : CollectorUrl → String
  | .Stage => "https://echocollector-stage.kroger.com/echo/messages"
  | .Prod => "https://echocollector.kroger.com/echo/messages"

/-! ## Event -/

/-- An Echo `Event` (src/echo.rs).  Field order is the declaration order of
the Rust struct, which is the serde serialization order.  `HashMap` values
are modelled as association lists in iteration order.  Defaults mirror
`#[derive(Default)]`. -/
structure Event where
  routing_key : String := ""
  event_type : EventType := EventType.Info
  message : String := ""
  correlation_id : Option Uuid := none
  timestamp : Option Int := none
  message_detail : Option (List (String × String)) := none
  host : Option String := none
  application_version : Option String := none
  data_center : Option String := none
  client_host_name : Option String := none
  destination_host_name : Option String := none
  destination_path : Option String := none
  start_timestamp : Option Nat := none
  finish_timestamp : Option Nat := none
  duration : Option Nat := none
  duration_in_ms : Option Nat := none
  response_code : Option Nat := none
  response : Option Response := none
  deriving DecidableEq

instance : Inhabited Event := ⟨{}⟩

/-- One optional serde field: `#[serde(skip_serializing_if = "Option::is_none")]`
emits nothing for `none` and one `(key, value)` pair for `some`. -/
def optField (k : String) : Option Json → List (String × Json)
  | none => []
  | some j => [(k, j)]

/-- The ordered field list of the derived `Serialize` impl of `Event`:
the three required fields, then every optional field exactly when it is
`some`, under its `#[serde(rename = ...)]` key. -/
def Event.toJsonFields (e : Event) : List (String × Json) :=
  [("routingKey", Json.str e.routing_key),
   ("type", Json.str e.event_type.serialize),
   ("message", Json.str e.message)] ++
  optField "correlationId" (e.correlation_id.map fun u => Json.str u.hyphenated) ++
  optField "timestamp" (e.timestamp.map Json.int) ++
  optField "messageDetail" (e.message_detail.map fun m =>
    Json.obj (m.map fun kv => (kv.1, Json.str kv.2))) ++
  optField "host" (e.host.map Json.str) ++
  optField "applicationVersion" (e.application_version.map Json.str) ++
  optField "dataCenter" (e.data_center.map Json.str) ++
  optField "clientHostName" (e.client_host_name.map Json.str) ++
  optField "destinationHostName" (e.destination_host_name.map Json.str) ++
  optField "destinationPath" (e.destination_path.map Json.str) ++
  optField "startTimestamp" (e.start_timestamp.map Json.nat) ++
  optField "finishTimestamp" (e.finish_timestamp.map Json.nat) ++
  optField "duration" (e.duration.map Json.nat) ++
  optField "durationInMs" (e.duration_in_ms.map Json.nat) ++
  optField "responseCode" (e.response_code.map Json.nat) ++
  optField "response" (e.response.map fun r => Json.str r.serialize)

/-- `serde_json::to_string` on one `Event`. -/
def Event.serializeJson (e : Event) : String :=
  (Json.obj e.toJsonFields).render

/-- `serde_json::to_string` on a `Vec<Event>`: a JSON array. -/
def serializeEventsString (evs : List Event) : String :=
  (Json.arr (evs.map fun e => Json.obj e.toJsonFields)).render

/-! ## Event setter methods (src/echo.rs, lines 243-333 and the
`#[set = "pub"]` attributes of the struct)

The getset-generated setters assign the given value to the named field and
return the receiver.  The hand-written setters convert through `Into<String>`
(modelled at the `String` instantiation, where the conversion is the
identity); the `Option<T>` ones match on the argument and rebuild it, as in
the source. -/

def Event.set_routing_key (self : Event) (routing_key : String) : Event :=
  { self with routing_key := routing_key }

def Event.set_event_type (self : Event) (event_type : EventType) : Event :=
  { self with event_type := event_type }

def Event.set_message (self : Event) (message : String) : Event :=
  { self with message := message }

def Event.set_correlation_id (self : Event) (correlation_id : Option Uuid) : Event :=
  { self with correlation_id := correlation_id }

def Event.set_timestamp (self : Event) (timestamp : Option Int) : Event :=
  { self with timestamp := timestamp }

def Event.set_message_detail (self : Event)
    (message_detail : Option (List (String × String))) : Event :=
  { self with message_detail := message_detail }

def Event.set_host (self : Event) (host : Option String) : Event :=
  { self with host := match host with | none => none | some t => some t }

def Event.set_application_version (self : Event)
    (application_version : Option String) : Event :=
  { self with application_version :=
      match application_version with | none => none | some t => some t }

def Event.set_data_center (self : Event) (data_center : Option String) : Event :=
  { self with data_center := match data_center with | none => none | some t => some t }

def Event.set_client_host_name (self : Event) (client_host_name : Option String) : Event :=
  { self with client_host_name :=
      match client_host_name with | none => none | some t => some t }

def Event.set_destination_host_name (self : Event)
    (destination_host_name : Option String) : Event :=
  { self with destination_host_name :=
      match destination_host_name with | none => none | some t => some t }

def Event.set_destination_path (self : Event) (destination_path : Option String) : Event :=
  { self with destination_path :=
      match destination_path with | none => none | some t => some t }

def Event.set_start_timestamp (self : Event) (start_timestamp : Option Nat) : Event :=
  { self with start_timestamp := start_timestamp }

def Event.set_finish_timestamp (self : Event) (finish_timestamp : Option Nat) : Event :=
  { self with finish_timestamp := finish_timestamp }

def Event.set_duration (self : Event) (duration : Option Nat) : Event :=
  { self with duration := duration }

def Event.set_duration_in_ms (self : Event) (duration_in_ms : Option Nat) : Event :=
  { self with duration_in_ms := duration_in_ms }

def Event.set_response_code (self : Event) (response_code : Option Nat) : Event :=
  { self with response_code := response_code }

def Event.set_response (self : Event) (response : Option Response) : Event :=
  { self with response := response }

/-! ## Logger, Payload, error taxonomy -/

/-- An injected `slog` logger handle.  Its internal state is not observed by
this crate, so it is a bare token; what matters is whether one is present. -/
structure Logger where
  deriving DecidableEq

/-- A `serde_json::Error` (carried opaquely; this crate only wraps it). -/
structure SerdeJsonError where
  msg : String
  deriving DecidableEq

/-- A `hyper::Error` (carried opaquely). -/
structure HyperError where
  msg : String
  deriving DecidableEq

/-- `ErrKind` (src/error.rs).  Foreign error payloads are carried as their
message strings, except `SerdeJson` which keeps its own type because
`Spawner::spawn` converts it. -/
inductive ErrKind where
  | Hyper (e : HyperError)
  | HyperHTTP (e : String)
  | HyperTLS (e : String)
  | Io (e : String)
  | ParseUuid (e : String)
  | SerdeJson (e : SerdeJsonError)
  | Str (e : String)
  | Var (e : String)
  | Run
  deriving DecidableEq

/-- `Err` (src/error.rs): wraps an `ErrKind`. -/
structure Err where
  inner : ErrKind
  deriving DecidableEq

/-- `Payload` (src/echo.rs).  Defaults mirror `#[derive(Default)]`. -/
structure Payload where
  url : CollectorUrl := CollectorUrl.Stage
  events : List Event := []
  logger : Option Logger := none
  error_count : Nat := 0
  retry_count : Nat := 0

instance : Inhabited Payload := ⟨{}⟩

/-- getset setter `Payload::set_url`. -/
def Payload.set_url (self : Payload) (url : CollectorUrl) : Payload :=
  { self with url := url }

/-- getset setter `Payload::set_events`. -/
def Payload.set_events (self : Payload) (events : List Event) : Payload :=
  { self with events := events }

/-- getset setter `Payload::set_logger`. -/
def Payload.set_logger (self : Payload) (logger : Option Logger) : Payload :=
  { self with logger := logger }

/-! ## Spawner::spawn -/

/-- The `hyper` client handle held by the `Spawner`; shared, not inspected. -/
structure HttpClient where
  deriving DecidableEq

/-- The `Spawner` (tokio runtime + hyper client).  The runtime itself has no
observable state here; scheduling is made explicit in the result of `spawn`. -/
structure Spawner where
  client : HttpClient

/-- The state captured by the background task that `spawn` schedules:
the cloned client, the cloned optional logger, the resolved url string and
the serialized JSON body — exactly the values moved into the async block. -/
structure ScheduledTask where
  client : HttpClient
  logger : Option Logger
  uri : String
  json : String
  deriving DecidableEq

/-- `Spawner::spawn`, lines 46-61 of src/echo.rs, with the call to
`serde_json::to_string` abstracted as the function argument `ser` (the
concrete crate instantiates it with `serializeEvents` below).  The returned
pair is the `Result<()>` given back to the caller together with the task
scheduled on the runtime, if any: the `?` on serialization converts a
`serde_json::Error` into `Err` via `ErrKind::SerdeJson` and returns before
anything is spawned; otherwise one task is spawned and `Ok(())` returned. -/
def Spawner.spawn (self : Spawner) (ser : List Event → Except SerdeJsonError String)
    (payload : Payload) : Except Err Unit × Option ScheduledTask :=
  match ser payload.events with
  | .error e => (.error ⟨ErrKind.SerdeJson e⟩, none)
  | .ok json =>
    (.ok (), some { client := self.client, logger := payload.logger,
                    uri := payload.url.as_str, json := json })

/-- `serde_json::to_string` on `Vec<Event>` as an `Except`: the derived
serializer of `Event` has no failing path for this closed schema (strings,
integers, UUIDs, string-keyed maps and unit enums all serialize totally),
so the result is always `ok`. -/
def serializeEvents (evs : List Event) : Except SerdeJsonError String :=
  .ok (serializeEventsString evs)

/-! ## Lossy UTF-8 decoding (`String::from_utf8_lossy`)

Rust replaces each maximal ill-formed subsequence prefix with one U+FFFD:
an invalid lead byte consumes one byte; a valid lead followed by an invalid
continuation consumes the valid prefix only; a truncated sequence at the end
of input consumes the remainder.  The fuel argument (one unit per emitted
character, bounded by the byte count) makes the recursion structural. -/

/-- Continuation byte test: `0x80..=0xBF`. -/
def utf8Cont (b : Nat) : Bool :=
  0x80 ≤ b && b ≤ 0xBF

/-- Admissible first continuation byte after lead `b`, per the UTF-8
well-formedness table (overlong and surrogate encodings excluded). -/
def utf8Cont1 (b b1 : Nat) : Bool :=
  if b = 0xE0 then 0xA0 ≤ b1 && b1 ≤ 0xBF
  else if b = 0xED then 0x80 ≤ b1 && b1 ≤ 0x9F
  else if b = 0xF0 then 0x90 ≤ b1 && b1 ≤ 0xBF
  else if b = 0xF4 then 0x80 ≤ b1 && b1 ≤ 0x8F
  else utf8Cont b1

/-- U+FFFD. -/
def replacementChar : Char :=
  Char.ofNat 0xFFFD

/-- Worker for the lossy decoder; each step consumes at least one byte and
one unit of fuel. -/
def utf8LossyGo : Nat → List Nat → List Char
  | 0, _ => []
  | _ + 1, [] => []
  | fuel + 1, b :: rest =>
    if b ≤ 0x7F then
      Char.ofNat b :: utf8LossyGo fuel rest
    else if b < 0xC2 then
      replacementChar :: utf8LossyGo fuel rest
    else if b ≤ 0xDF then
      match rest with
      | [] => [replacementChar]
      | b1 :: rest1 =>
        if utf8Cont b1 then
          Char.ofNat ((b - 0xC0) * 0x40 + (b1 - 0x80)) :: utf8LossyGo fuel rest1
        else
          replacementChar :: utf8LossyGo fuel rest
    else if b ≤ 0xEF then
      match rest with
      | [] => [replacementChar]
      | b1 :: rest1 =>
        if utf8Cont1 b b1 then
          match rest1 with
          | [] => [replacementChar]
          | b2 :: rest2 =>
            if utf8Cont b2 then
              Char.ofNat ((b - 0xE0) * 0x1000 + (b1 - 0x80) * 0x40 + (b2 - 0x80)) ::
                utf8LossyGo fuel rest2
            else
              replacementChar :: utf8LossyGo fuel rest1
        else
          replacementChar :: utf8LossyGo fuel rest
    else if b ≤ 0xF4 then
      match rest with
      | [] => [replacementChar]
      | b1 :: rest1 =>
        if utf8Cont1 b b1 then
          match rest1 with
          | [] => [replacementChar]
          | b2 :: rest2 =>
            if utf8Cont b2 then
              match rest2 with
              | [] => [replacementChar]
              | b3 :: rest3 =>
                if utf8Cont b3 then
                  Char.ofNat ((b - 0xF0) * 0x40000 + (b1 - 0x80) * 0x1000 +
                      (b2 - 0x80) * 0x40 + (b3 - 0x80)) :: utf8LossyGo fuel rest3
                else
                  replacementChar :: utf8LossyGo fuel rest2
            else
              replacementChar :: utf8LossyGo fuel rest1
        else
          replacementChar :: utf8LossyGo fuel rest
    else
      replacementChar :: utf8LossyGo fuel rest

/-- `String::from_utf8_lossy` on a byte buffer. -/
def fromUtf8Lossy (bytes : List Nat) : String :=
  String.mk (utf8LossyGo bytes.length bytes)

/-! ## run_impl response handling (src/echo.rs, lines 88-116)

The HTTP exchange itself is an effect; its observable logic — status
classification, logging and the returned error — is a function of the
response.  A response is a status code plus the body as the list of chunk
results that `body.next()` yields.  Log output is returned explicitly; the
`try_trace!`/`try_error!` macros log only when the logger is present. -/

/-- One structured log line emitted by `run_impl`. -/
inductive LogEntry where
  | traceSuccess
  | errorSend (errType : String) (status : Nat)
  | errorBody (text : String)
  deriving DecidableEq

/-- `try_trace!`/`try_error!`: emit the entry only when a logger is set. -/
def tryLog (logger : Option Logger) (entry : LogEntry) : List LogEntry :=
  match logger with
  | none => []
  | some _ => [entry]

/-- An HTTP response as `run_impl` consumes it. -/
structure HttpResponse where
  status : Nat
  chunks : List (Except HyperError (List Nat))

/-- `StatusCode::is_success`: `200..=299`. -/
def statusIsSuccess (s : Nat) : Bool :=
  200 ≤ s && s < 300

/-- `StatusCode::is_client_error`: `400..=499`. -/
def statusIsClientError (s : Nat) : Bool :=
  400 ≤ s && s < 500

/-- `StatusCode::is_server_error`: `500..=599`. -/
def statusIsServerError (s : Nat) : Bool :=
  500 ≤ s && s < 600

/-- The `err_type` chain of lines 94-100. -/
def errTypeOf (s : Nat) : String :=
  if statusIsClientError s then "Client"
  else if statusIsServerError s then "Server"
  else "Unknown"

/-- The error a failing `run_impl` future resolves to (`FutResult`):
either a chunk-read `hyper::Error` propagated by `?`, or the boxed
`ErrKind::Run`.  (`write_all` on a `Vec` buffer cannot fail.) -/
inductive FutErr where
  | hyper (e : HyperError)
  | run
  deriving DecidableEq

/-- The `while let` drain loop of lines 108-113: concatenate chunks into the
buffer, propagating the first chunk error. -/
def drainBody : List (Except HyperError (List Nat)) → Except HyperError (List Nat)
  | [] => .ok []
  | .error e :: _ => .error e
  | .ok c :: rest =>
    match drainBody rest with
    | .error e => .error e
    | .ok more => .ok (c ++ more)

/-- Lines 90-116 of `run_impl`: response handling.  Returns the log entries
emitted (in order) and the future result. -/
def runImplHandle (logger : Option Logger) (resp : HttpResponse) :
    List LogEntry × Except FutErr Unit :=
  if statusIsSuccess resp.status then
    (tryLog logger LogEntry.traceSuccess, .ok ())
  else
    let firstLog := tryLog logger (LogEntry.errorSend (errTypeOf resp.status) resp.status)
    match drainBody resp.chunks with
    | .error e => (firstLog, .error (FutErr.hyper e))
    | .ok buffer =>
      (firstLog ++ tryLog logger (LogEntry.errorBody (fromUtf8Lossy buffer)),
       .error FutErr.run)

/-! ## Derived notions used by the statements -/

/-- The serialized key list of an event, in emission order. -/
def jsonKeys (e : Event) : List String :=
  e.toJsonFields.map Prod.fst

/-- Whether a JSON value is `null`. -/
def Json.isNull : Json → Bool
  | .null => true
  | _ => false

/-- The full key schema of `Event`, in struct declaration order, written as
one singleton block per optional field so the serializer's shape is mirrored. -/
def eventSchemaKeys : List String :=
  ["routingKey", "type", "message"] ++ ["correlationId"] ++ ["timestamp"] ++
  ["messageDetail"] ++ ["host"] ++ ["applicationVersion"] ++ ["dataCenter"] ++
  ["clientHostName"] ++ ["destinationHostName"] ++ ["destinationPath"] ++
  ["startTimestamp"] ++ ["finishTimestamp"] ++ ["duration"] ++ ["durationInMs"] ++
  ["responseCode"] ++ ["response"]

/-- The UUID of the `full` serialization test, `35F3E1D6-D859-4AA0-8C58-2CDFE97A4710`. -/
def c5Uuid : Uuid :=
  ⟨0x35F3E1D6D8594AA08C582CDFE97A4710⟩

/-- The event of the golden-file scenario: routing key `atlas-dev-promises`,
type `System`, message `testing`, the UUID above, timestamp 196300801666. -/
def c5Event : Event :=
  (((((default : Event).set_routing_key "atlas-dev-promises").set_event_type
      EventType.System).set_message "testing").set_correlation_id
      (some c5Uuid)).set_timestamp (some 196300801666)

/-! ## Helper lemmas -/

theorem optField_fst_mem (k k2 : String) (v : Option Json) :
    k ∈ (optField k2 v).map Prod.fst ↔ k = k2 ∧ v.isSome := by
  cases v <;> simp [optField]

theorem optField_pair_mem {α : Type} (k k2 : String) (o : Option α) (f : α → Json) :
    (∃ x, (k, x) ∈ optField k2 (o.map f)) ↔ k = k2 ∧ o.isSome = true := by
  cases o <;> simp [optField]

theorem optField_fst_sublist (k : String) (v : Option Json) :
    List.Sublist ((optField k v).map Prod.fst) [k] := by
  cases v <;> simp [optField]

theorem optField_snd_mem {α : Type} (j : Json) (k : String) (o : Option α)
    (f : α → Json) :
    j ∈ (optField k (o.map f)).map Prod.snd ↔ ∃ a, o = some a ∧ j = f a := by
  cases o <;> simp [optField]

theorem drainBody_ok (chunks : List (List Nat)) :
    drainBody (chunks.map Except.ok) = .ok chunks.flatten := by
  induction chunks with
  | nil => rfl
  | cons c rest ih => simp [drainBody, ih]

theorem serverError_not_clientError (s : Nat) (h : statusIsServerError s = true) :
    statusIsClientError s = false := by
  simp only [statusIsServerError, Bool.and_eq_true, decide_eq_true_eq] at h
  simp only [statusIsClientError, Bool.and_eq_true, decide_eq_true_eq,
    Bool.and_eq_false_iff, decide_eq_false_iff_not]
  omega



/-! ## Claim theorems -/

/-- Claim C4: every default-constructed `Event` serializes to exactly
the string with the three required keys and no optional keys. -/
theorem default_event_minimal_serialization :
    (default : Event).serializeJson =
      "\x7b\"routingKey\":\"\",\"type\":\"INFO\",\"message\":\"\"\x7d" := by
  decide

/-- Claim C7: `EventType` serializes its five variants to the exact
uppercase strings, with `Info` as the default variant, and `Response`
serializes `Success` and `Failure` to `success` and `failure`. -/
theorem eventType_response_serialization :
    EventType.serialize EventType.Error = "ERROR" ∧
    EventType.serialize EventType.Info = "INFO" ∧
    EventType.serialize EventType.Performance = "PERFORMANCE" ∧
    EventType.serialize EventType.Tracking = "TRACKING" ∧
    EventType.serialize EventType.System = "SYSTEM" ∧
    (default : EventType) = EventType.Info ∧
    Response.serialize Response.Success = "success" ∧
    Response.serialize Response.Failure = "failure" :=
  ⟨rfl, rfl, rfl, rfl, rfl, rfl, rfl, rfl⟩

/-- Claim C6: `CollectorUrl` is a closed two-variant enumeration with
`Stage` as default; `as_str` gives the two endpoints distinct HTTPS URL
strings, each ending in `/echo/messages`. -/
theorem collectorUrl_closed_and_https :
    (∀ u : CollectorUrl, u = CollectorUrl.Stage ∨ u = CollectorUrl.Prod) ∧
    (default : CollectorUrl) = CollectorUrl.Stage ∧
    (CollectorUrl.Stage.as_str == CollectorUrl.Prod.as_str) = false ∧
    ∀ u : CollectorUrl, ∃ mid,
      u.as_str = "https://" ++ mid ++ "/echo/messages" := by
  refine ⟨?_, rfl, by decide, ?_⟩
  · intro u
    cases u
    · exact Or.inl rfl
    · exact Or.inr rfl
  · intro u
    cases u
    · exact ⟨"echocollector-stage.kroger.com", by decide⟩
    · exact ⟨"echocollector.kroger.com", by decide⟩

/-- Claim C5: the golden-file event (routing key `atlas-dev-promises`,
type `System`, message `testing`, uppercase-written UUID, timestamp
196300801666) serializes to exactly the expected string with the UUID
lowercased; and for every event the serialized keys appear in the fixed
schema declaration order (the key list is a sublist of the schema). -/
theorem full_event_serialization :
    Uuid.parse_str "35F3E1D6-D859-4AA0-8C58-2CDFE97A4710" = some c5Uuid ∧
    c5Event.serializeJson =
      "\x7b\"routingKey\":\"atlas-dev-promises\",\"type\":\"SYSTEM\",\"message\":\"testing\",\"correlationId\":\"35f3e1d6-d859-4aa0-8c58-2cdfe97a4710\",\"timestamp\":196300801666\x7d" ∧
    ∀ e : Event, List.Sublist (e.toJsonFields.map Prod.fst) eventSchemaKeys := by
  refine ⟨by decide, by decide, ?_⟩
  intro e
  unfold eventSchemaKeys Event.toJsonFields
  simp only [List.map_append, List.map_cons, List.map_nil]
  exact (((((((((((((((List.Sublist.refl _).append
    (optField_fst_sublist _ _)).append (optField_fst_sublist _ _)).append
    (optField_fst_sublist _ _)).append (optField_fst_sublist _ _)).append
    (optField_fst_sublist _ _)).append (optField_fst_sublist _ _)).append
    (optField_fst_sublist _ _)).append (optField_fst_sublist _ _)).append
    (optField_fst_sublist _ _)).append (optField_fst_sublist _ _)).append
    (optField_fst_sublist _ _)).append (optField_fst_sublist _ _)).append
    (optField_fst_sublist _ _)).append (optField_fst_sublist _ _)).append
    (optField_fst_sublist _ _)

/-- Claim C10: serialization of a payload's event vector always succeeds,
so `Spawner::spawn` never takes its error branch: for every payload it
returns `Ok(())` and schedules exactly the task capturing the client, the
logger, the resolved url and the serialized body. -/
theorem spawn_always_ok (sp : Spawner) (p : Payload) :
    sp.spawn serializeEvents p =
      (.ok (), some { client := sp.client, logger := p.logger,
                      uri := p.url.as_str, json := serializeEventsString p.events }) :=
  rfl

/-- Claim C1: `Spawner::spawn` first serializes the payload events; a
serialization error propagates synchronously as `ErrKind::SerdeJson` and no
task is scheduled, while a successful serialization schedules the task
carrying the serialized body and returns `Ok(())`. -/
theorem spawn_serialization_gate (sp : Spawner)
    (ser : List Event → Except SerdeJsonError String) (p : Payload) :
    (∀ e, ser p.events = .error e →
        sp.spawn ser p = (.error ⟨ErrKind.SerdeJson e⟩, none)) ∧
    (∀ j, ser p.events = .ok j →
        sp.spawn ser p =
          (.ok (), some { client := sp.client, logger := p.logger,
                          uri := p.url.as_str, json := j })) := by
  constructor
  · intro e he
    simp [Spawner.spawn, he]
  · intro j hj
    simp [Spawner.spawn, hj]

/-- Witness for C1 at concrete inputs: a failing serializer on the default
payload propagates the typed error and schedules nothing; the crate's
serializer on the default payload schedules the empty-array body. -/
theorem spawn_serialization_gate_witness :
    Spawner.spawn ⟨⟨⟩⟩ (fun _ => .error ⟨"boom"⟩) {} =
      (.error ⟨ErrKind.SerdeJson ⟨"boom"⟩⟩, none) ∧
    Spawner.spawn ⟨⟨⟩⟩ serializeEvents {} =
      (.ok (), some { client := ⟨⟩, logger := none,
                      uri := CollectorUrl.Stage.as_str, json := "[]" }) :=
  ⟨(spawn_serialization_gate ⟨⟨⟩⟩ (fun _ => .error ⟨"boom"⟩) {}).1 ⟨"boom"⟩ rfl,
   (spawn_serialization_gate ⟨⟨⟩⟩ serializeEvents {}).2 "[]" rfl⟩

/-- Claim C8: the `error_count` and `retry_count` fields of `Payload` are
inert: `spawn` depends only on the events, url and logger fields (payloads
agreeing there produce identical results), and the three payload setters —
the only operations on a built payload — leave both counters unchanged. -/
theorem payload_counters_inert (sp : Spawner)
    (ser : List Event → Except SerdeJsonError String) (p q : Payload)
    (he : p.events = q.events) (hu : p.url = q.url) (hl : p.logger = q.logger) :
    sp.spawn ser p = sp.spawn ser q ∧
    (∀ u, (p.set_url u).error_count = p.error_count ∧
      (p.set_url u).retry_count = p.retry_count) ∧
    (∀ evs, (p.set_events evs).error_count = p.error_count ∧
      (p.set_events evs).retry_count = p.retry_count) ∧
    (∀ lg, (p.set_logger lg).error_count = p.error_count ∧
      (p.set_logger lg).retry_count = p.retry_count) := by
  refine ⟨?_, fun u => ⟨rfl, rfl⟩, fun evs => ⟨rfl, rfl⟩, fun lg => ⟨rfl, rfl⟩⟩
  simp [Spawner.spawn, he, hu, hl]

/-- Witness for C8: two default payloads differing only in their counters
produce the same `spawn` result. -/
theorem payload_counters_inert_witness :
    Spawner.spawn ⟨⟨⟩⟩ serializeEvents { error_count := 7, retry_count := 9 } =
      Spawner.spawn ⟨⟨⟩⟩ serializeEvents {} ∧
    (({ error_count := 7, retry_count := 9 : Payload }).set_events []).error_count = 7 :=
  ⟨(payload_counters_inert ⟨⟨⟩⟩ serializeEvents
      { error_count := 7, retry_count := 9 } {} rfl rfl rfl).1,
   ((payload_counters_inert ⟨⟨⟩⟩ serializeEvents
      { error_count := 7, retry_count := 9 } {} rfl rfl rfl).2.2.1 []).1⟩

/-- Claim C2: `run_impl` logs a trace-level success entry and resolves `Ok`
on any 2xx status; on any other status it logs an error entry carrying the
classification (`Client` for 4xx, `Server` for 5xx, `Unknown` otherwise)
and the status code, drains the body and logs it decoded as lossy UTF-8,
and resolves with the internal `Run` error kind. -/
theorem runImpl_response_classification (lg : Logger) (status : Nat)
    (chunks : List (List Nat)) :
    (statusIsSuccess status = true →
       runImplHandle (some lg) ⟨status, chunks.map Except.ok⟩ =
         ([LogEntry.traceSuccess], .ok ())) ∧
    (statusIsSuccess status = false →
       runImplHandle (some lg) ⟨status, chunks.map Except.ok⟩ =
         ([LogEntry.errorSend (errTypeOf status) status,
           LogEntry.errorBody (fromUtf8Lossy chunks.flatten)], .error FutErr.run)) ∧
    (statusIsClientError status = true → errTypeOf status = "Client") ∧
    (statusIsServerError status = true → errTypeOf status = "Server") ∧
    (statusIsSuccess status = false → statusIsClientError status = false →
       statusIsServerError status = false → errTypeOf status = "Unknown") := by
  refine ⟨?_, ?_, ?_, ?_, ?_⟩
  · intro h
    simp [runImplHandle, h, tryLog]
  · intro h
    simp [runImplHandle, h, tryLog, drainBody_ok]
  · intro h
    simp [errTypeOf, h]
  · intro h
    simp [errTypeOf, h, serverError_not_clientError _ h]
  · intro _ h1 h2
    simp [errTypeOf, h1, h2]

/-- Witness for C2 at concrete inputs: a 500 response with body `oops`
takes the error path with classification `Server`, and a 200 response with
no body takes the success path. -/
theorem runImpl_response_classification_witness :
    statusIsSuccess 500 = false ∧
    runImplHandle (some ⟨⟩) ⟨500, [[111, 111, 112, 115]].map Except.ok⟩ =
      ([LogEntry.errorSend (errTypeOf 500) 500,
        LogEntry.errorBody (fromUtf8Lossy [[111, 111, 112, 115]].flatten)],
       .error FutErr.run) ∧
    errTypeOf 500 = "Server" ∧
    fromUtf8Lossy [[111, 111, 112, 115]].flatten = "oops" ∧
    runImplHandle (some ⟨⟩) ⟨200, ([] : List (List Nat)).map Except.ok⟩ =
      ([LogEntry.traceSuccess], .ok ()) :=
  ⟨rfl,
   (runImpl_response_classification ⟨⟩ 500 [[111, 111, 112, 115]]).2.1 rfl,
   (runImpl_response_classification ⟨⟩ 500 []).2.2.2.1 rfl,
   by decide,
   (runImpl_response_classification ⟨⟩ 200 []).1 rfl⟩

/-- Claim C3: serialization emits a key for an optional field exactly when
that field is `some` — the key is present in the serialized field list iff
the Option is set — and no emitted value is ever JSON `null`. -/
theorem event_optional_field_presence (e : Event) :
    (("correlationId" ∈ jsonKeys e ↔ e.correlation_id.isSome = true) ∧
     ("timestamp" ∈ jsonKeys e ↔ e.timestamp.isSome = true) ∧
     ("messageDetail" ∈ jsonKeys e ↔ e.message_detail.isSome = true) ∧
     ("host" ∈ jsonKeys e ↔ e.host.isSome = true) ∧
     ("applicationVersion" ∈ jsonKeys e ↔ e.application_version.isSome = true) ∧
     ("dataCenter" ∈ jsonKeys e ↔ e.data_center.isSome = true) ∧
     ("clientHostName" ∈ jsonKeys e ↔ e.client_host_name.isSome = true) ∧
     ("destinationHostName" ∈ jsonKeys e ↔ e.destination_host_name.isSome = true) ∧
     ("destinationPath" ∈ jsonKeys e ↔ e.destination_path.isSome = true) ∧
     ("startTimestamp" ∈ jsonKeys e ↔ e.start_timestamp.isSome = true) ∧
     ("finishTimestamp" ∈ jsonKeys e ↔ e.finish_timestamp.isSome = true) ∧
     ("duration" ∈ jsonKeys e ↔ e.duration.isSome = true) ∧
     ("durationInMs" ∈ jsonKeys e ↔ e.duration_in_ms.isSome = true) ∧
     ("responseCode" ∈ jsonKeys e ↔ e.response_code.isSome = true) ∧
     ("response" ∈ jsonKeys e ↔ e.response.isSome = true)) ∧
    (e.toJsonFields.map Prod.snd).all (fun j => !j.isNull) = true := by
  constructor
  · refine ⟨?_, ?_, ?_, ?_, ?_, ?_, ?_, ?_, ?_, ?_, ?_, ?_, ?_, ?_, ?_⟩ <;>
      simp [jsonKeys, Event.toJsonFields, optField_pair_mem]
  · rw [List.all_eq_true]
    intro j hj
    simp only [Event.toJsonFields, List.map_append, List.mem_append, List.map_cons,
      List.map_nil, List.mem_cons, List.not_mem_nil, or_false, optField_snd_mem] at hj
    rcases hj with (((((((((((((((rfl | rfl | rfl) | ⟨a, ha, rfl⟩) | ⟨a, ha, rfl⟩) |
      ⟨a, ha, rfl⟩) | ⟨a, ha, rfl⟩) | ⟨a, ha, rfl⟩) | ⟨a, ha, rfl⟩) | ⟨a, ha, rfl⟩) |
      ⟨a, ha, rfl⟩) | ⟨a, ha, rfl⟩) | ⟨a, ha, rfl⟩) | ⟨a, ha, rfl⟩) | ⟨a, ha, rfl⟩) |
      ⟨a, ha, rfl⟩) | ⟨a, ha, rfl⟩) | ⟨a, ha, rfl⟩ <;> rfl

/-- Witness for C3: on a concrete event with the correlation id set, the
key is present iff the field is set; on the default event no serialized
value is `null`. -/
theorem event_optional_field_presence_witness :
    ("correlationId" ∈ jsonKeys ((default : Event).set_correlation_id (some ⟨0⟩)) ↔
      ((default : Event).set_correlation_id (some ⟨0⟩)).correlation_id.isSome = true) ∧
    ((default : Event).toJsonFields.map Prod.snd).all (fun j => !j.isNull) = true :=
  ⟨(event_optional_field_presence ((default : Event).set_correlation_id (some ⟨0⟩))).1.1,
   (event_optional_field_presence default).2⟩

/-- Claim C9: every setter of `Event` yields exactly the receiver with only
the named field changed — the named field holds the given value, and
overwriting it back with the old value restores the original event — and
the value a setter returns is that updated receiver itself, which is what
makes chained calls act on one and the same event. -/
theorem event_setters_frame (e : Event) (rk ms : String) (et : EventType)
    (cid : Option Uuid) (ts : Option Int) (md : Option (List (String × String)))
    (hs av dc ch dh dp : Option String) (st ft du dm rc : Option Nat)
    (rs : Option Response) :
    ((e.set_routing_key rk).routing_key = rk ∧
      { e.set_routing_key rk with routing_key := e.routing_key } = e) ∧
    ((e.set_event_type et).event_type = et ∧
      { e.set_event_type et with event_type := e.event_type } = e) ∧
    ((e.set_message ms).message = ms ∧
      { e.set_message ms with message := e.message } = e) ∧
    ((e.set_correlation_id cid).correlation_id = cid ∧
      { e.set_correlation_id cid with correlation_id := e.correlation_id } = e) ∧
    ((e.set_timestamp ts).timestamp = ts ∧
      { e.set_timestamp ts with timestamp := e.timestamp } = e) ∧
    ((e.set_message_detail md).message_detail = md ∧
      { e.set_message_detail md with message_detail := e.message_detail } = e) ∧
    ((e.set_host hs).host = hs ∧
      { e.set_host hs with host := e.host } = e) ∧
    ((e.set_application_version av).application_version = av ∧
      { e.set_application_version av with
          application_version := e.application_version } = e) ∧
    ((e.set_data_center dc).data_center = dc ∧
      { e.set_data_center dc with data_center := e.data_center } = e) ∧
    ((e.set_client_host_name ch).client_host_name = ch ∧
      { e.set_client_host_name ch with client_host_name := e.client_host_name } = e) ∧
    ((e.set_destination_host_name dh).destination_host_name = dh ∧
      { e.set_destination_host_name dh with
          destination_host_name := e.destination_host_name } = e) ∧
    ((e.set_destination_path dp).destination_path = dp ∧
      { e.set_destination_path dp with destination_path := e.destination_path } = e) ∧
    ((e.set_start_timestamp st).start_timestamp = st ∧
      { e.set_start_timestamp st with start_timestamp := e.start_timestamp } = e) ∧
    ((e.set_finish_timestamp ft).finish_timestamp = ft ∧
      { e.set_finish_timestamp ft with finish_timestamp := e.finish_timestamp } = e) ∧
    ((e.set_duration du).duration = du ∧
      { e.set_duration du with duration := e.duration } = e) ∧
    ((e.set_duration_in_ms dm).duration_in_ms = dm ∧
      { e.set_duration_in_ms dm with duration_in_ms := e.duration_in_ms } = e) ∧
    ((e.set_response_code rc).response_code = rc ∧
      { e.set_response_code rc with response_code := e.response_code } = e) ∧
    ((e.set_response rs).response = rs ∧
      { e.set_response rs with response := e.response } = e) := by
  cases hs <;> cases av <;> cases dc <;> cases ch <;> cases dh <;> cases dp <;>
    (repeat' apply And.intro) <;> rfl
